import Mathlib

/-!
Verification development for the ground-station orchestration core
(`backend/state.py`, `backend/main.py`, `backend/supervisor.py`,
`backend/parsers.py`).  The Python code is shallowly embedded: dictionaries
become ordered association lists, `collections.deque(maxlen=n)` becomes a
bounded-append operation on lists, Python floats become exact rationals, and
fallible operations return `Option`.  Two ghost history fields
(`statusTrace`, `eventLog`) record the unbounded sequence of status changes
and event appends so that temporal properties can be stated; they are write-
only instrumentation and influence no modelled behaviour.
-/

/-- Values that can appear in the telemetry dictionary of
`backend/state.py`: Python ints, floats (embedded as exact rationals),
booleans, strings, `None`, and the one empty-dict default
(`laser_status_flags`). -/
inductive Val where
  | vInt : Int → Val
  | vRat : ℚ → Val
  | vBool : Bool → Val
  | vStr : String → Val
  | vNone : Val
  | vDict : Val
deriving DecidableEq, Repr

/-- An entry of the event ring buffers, mirroring the dict built in
`SharedState.add_event`: timestamp, level, source, code, message. -/
structure Event where
  ts : Nat
  level : String
  src : String
  code : String
  msg : String
deriving DecidableEq, Repr

/-- Appending to a `collections.deque(maxlen := cap)`: if the buffer is
below capacity the element is appended on the right, otherwise the leftmost
(oldest) element is discarded first. -/
def dequeAppend (cap : Nat) (xs : List α) (x : α) : List α :=
  if xs.length < cap then xs ++ [x] else xs.drop 1 ++ [x]

/-- The telemetry dictionary default built in the `SharedState` dataclass
field initializer (`state.py` lines 26-58), in source order. -/
def defaultTelemetry : List (String × Val) :=
  [ ("commanded_pct", Val.vInt 0), ("commanded_w", Val.vRat 0),
    ("received_mw", Val.vRat 0), ("efficiency_pct", Val.vRat 0),
    ("link_quality_pct", Val.vInt 0), ("rtt_ms", Val.vRat 0),
    ("granted", Val.vBool false), ("deny_reason", Val.vNone),
    ("grants_total", Val.vInt 0), ("denies_total", Val.vInt 0),
    ("seq", Val.vInt 0), ("voltage_mv", Val.vInt 0),
    ("current_ma", Val.vInt 0), ("soc_pct", Val.vRat 0),
    ("temp_cdeg", Val.vInt 0), ("distance_m", Val.vRat 0),
    ("roll_deg", Val.vRat 0), ("pitch_deg", Val.vRat 0),
    ("yaw_deg", Val.vRat 0), ("gps_lat_deg", Val.vNone),
    ("gps_lon_deg", Val.vNone), ("gps_alt_m", Val.vNone),
    ("gps_rel_alt_m", Val.vNone), ("home_lat_deg", Val.vNone),
    ("home_lon_deg", Val.vNone),
    ("panel_target_azimuth_deg", Val.vRat 0),
    ("panel_target_elevation_deg", Val.vRat 0),
    ("panel_gimbal_azimuth_deg", Val.vRat 0),
    ("panel_gimbal_elevation_deg", Val.vRat 0),
    ("panel_relative_azimuth_deg", Val.vRat 0),
    ("panel_misalignment_deg", Val.vRat 0),
    ("panel_efficiency_factor", Val.vRat 1),
    ("relay_udp_to_ser_total", Val.vInt 0),
    ("relay_ser_to_udp_total", Val.vInt 0),
    ("laser_connected", Val.vBool false), ("laser_avg_power_w", Val.vRat 0),
    ("laser_peak_power_w", Val.vRat 0),
    ("laser_case_temperature_c", Val.vRat 0),
    ("laser_board_temperature_c", Val.vRat 0),
    ("laser_setpoint_pct", Val.vRat 0), ("laser_status_flags", Val.vDict),
    ("laser_status_word", Val.vInt 0),
    ("laser_device_id", Val.vStr ("Unknown")),
    ("laser_firmware_revision", Val.vStr ("Unknown")),
    ("laser_emission_on", Val.vBool false),
    ("laser_power_supply_on", Val.vBool false),
    ("laser_alarm_critical", Val.vBool false),
    ("laser_alarm_overheat", Val.vBool false), ("laser_error", Val.vNone),
    ("laser_output_power_w", Val.vRat 0),
    ("laser_temperature_c", Val.vRat 0) ]

/-- The replacement telemetry dictionary literal written inside
`SharedState.start_session` (`state.py` lines 131-144), in source order.
Note it is not the same dictionary as `defaultTelemetry`: the GPS, home and
panel keys are absent and `laser_commanded_w` is added. -/
def startSessionTelemetry : List (String × Val) :=
  [ ("commanded_pct", Val.vInt 0), ("commanded_w", Val.vRat 0),
    ("received_mw", Val.vRat 0), ("efficiency_pct", Val.vRat 0),
    ("link_quality_pct", Val.vInt 0), ("rtt_ms", Val.vRat 0),
    ("granted", Val.vBool false), ("deny_reason", Val.vNone),
    ("grants_total", Val.vInt 0), ("denies_total", Val.vInt 0),
    ("seq", Val.vInt 0), ("voltage_mv", Val.vInt 0),
    ("current_ma", Val.vInt 0), ("soc_pct", Val.vRat 0),
    ("temp_cdeg", Val.vInt 0), ("distance_m", Val.vRat 0),
    ("roll_deg", Val.vRat 0), ("pitch_deg", Val.vRat 0),
    ("yaw_deg", Val.vRat 0),
    ("relay_udp_to_ser_total", Val.vInt 0),
    ("relay_ser_to_udp_total", Val.vInt 0),
    ("laser_connected", Val.vBool false), ("laser_avg_power_w", Val.vRat 0),
    ("laser_peak_power_w", Val.vRat 0), ("laser_commanded_w", Val.vRat 0),
    ("laser_case_temperature_c", Val.vRat 0),
    ("laser_board_temperature_c", Val.vRat 0),
    ("laser_setpoint_pct", Val.vRat 0), ("laser_status_flags", Val.vDict),
    ("laser_status_word", Val.vInt 0),
    ("laser_device_id", Val.vStr ("Unknown")),
    ("laser_firmware_revision", Val.vStr ("Unknown")),
    ("laser_emission_on", Val.vBool false),
    ("laser_power_supply_on", Val.vBool false),
    ("laser_alarm_critical", Val.vBool false),
    ("laser_alarm_overheat", Val.vBool false), ("laser_error", Val.vNone),
    ("laser_output_power_w", Val.vRat 0),
    ("laser_temperature_c", Val.vRat 0) ]

/-- Overwrite-or-append of one key/value pair in an ordered association
list, the behaviour of a single Python dict key assignment: an existing key
keeps its position and gets the new value, a new key is appended. -/
def setKey : List (String × Val) → String × Val → List (String × Val)
  | [], kv => [kv]
  | (k, v) :: rest, kv =>
      if k = kv.1 then (kv.1, kv.2) :: rest else (k, v) :: setKey rest kv

/-- Python `dict.update`: apply every key/value pair of the partial update,
left to right. -/
def dictUpdate (m upd : List (String × Val)) : List (String × Val) :=
  upd.foldl setKey m

/-- The mutable fields of the `SharedState` dataclass that the claims
concern, plus the two ghost history fields. -/
structure SState where
  status : String
  session_id : Option String
  scenario : String
  ramp_params : Option (List (String × Val))
  session_start_time : ℚ
  telemetry : List (String × Val)
  rtt_samples : List ℚ
  events : List Event
  errors : List Event
  last_telemetry_ts : ℚ
  statusTrace : List String
  eventLog : List Event
deriving DecidableEq, Repr

/-- The state as constructed by the dataclass defaults of `SharedState`
(ghost histories empty). -/
def initState : SState :=
  { status := "DISCONNECTED", session_id := none, scenario := "Unknown",
    ramp_params := none, session_start_time := 0,
    telemetry := defaultTelemetry, rtt_samples := [], events := [],
    errors := [], last_telemetry_ts := 0, statusTrace := [], eventLog := [] }

/-- Embedding of `SharedState.add_event` (`state.py` lines 158-170): build
the event with the message truncated to 200 characters, append it to the
all-events deque (capacity 500), and to the error deque (capacity 50) when
the level is ERROR or WARN.  The broadcast-hook part is modelled separately
by `add_event_broadcast`. -/
def add_event (ts : Nat) (level src code msg : String) (s : SState) : SState :=
  let ev : Event := { ts := ts, level := level, src := src, code := code,
                      msg := msg.take 200 }
  let s := { s with events := dequeAppend 500 s.events ev,
                    eventLog := s.eventLog ++ [ev] }
  if level = "ERROR" ∨ level = "WARN" then
    { s with errors := dequeAppend 50 s.errors ev }
  else s

/-- Payload handed to the websocket broadcast hook by `add_event`:
the Python dict with keys `type` (always the string event) and `event`. -/
structure BroadcastPayload where
  ptype : String
  event : Event
deriving DecidableEq, Repr

/-- Embedding of the full `SharedState.add_event` including the broadcast
step (`state.py` lines 158-176).  After the critical section the hook, when
set, is invoked with the structured payload; any exception it raises
(`Except.error`) is caught and discarded, so the returned state is produced
in every case.  The second component records the payloads delivered to the
hook. -/
def add_event_broadcast (ts : Nat) (level src code msg : String) (s : SState)
    (hook : Option (BroadcastPayload → Except String Unit)) :
    SState × List BroadcastPayload :=
  let ev : Event := { ts := ts, level := level, src := src, code := code,
                      msg := msg.take 200 }
  let s' := add_event ts level src code msg s
  match hook with
  | none => (s', [])
  | some h =>
      let payload : BroadcastPayload := { ptype := "event", event := ev }
      match h payload with
      | Except.ok _ => (s', [payload])
      | Except.error _ => (s', [payload])

/-- Embedding of `SharedState.set_status`: swap the status, then emit the
STATUS_CHANGE event.  The ghost `statusTrace` records the new value. -/
def set_status (ts : Nat) (new : String) (s : SState) : SState :=
  let old := s.status
  let s := { s with status := new, statusTrace := s.statusTrace ++ [new] }
  add_event ts ("INFO") ("server") ("STATUS_CHANGE")
    ("Status changed from " ++ old ++ " to " ++ new) s

/-- Embedding of `SharedState.start_session` (`state.py` lines 122-147):
replace the session record, overwrite the telemetry dictionary with the
literal reset map, and clear the events, RTT and errors buffers. -/
def start_session (s : SState) (sid scenario : String)
    (params : List (String × Val)) (now : ℚ) : SState :=
  { s with session_id := some sid, scenario := scenario,
           ramp_params := some params, session_start_time := now,
           telemetry := startSessionTelemetry,
           events := [], rtt_samples := [], errors := [] }

/-- Embedding of `SharedState.update_telemetry` (`state.py` lines 84-90):
merge the partial update, stamp the telemetry timestamp and, when the
update carries a positive `rtt_ms` sample, append it to the RTT deque
(capacity 100). -/
def update_telemetry (s : SState) (data : List (String × Val)) (now : ℚ) :
    SState :=
  let s := { s with telemetry := dictUpdate s.telemetry data,
                    last_telemetry_ts := now }
  match data.lookup ("rtt_ms") with
  | some (Val.vRat q) =>
      if 0 < q then { s with rtt_samples := dequeAppend 100 s.rtt_samples q }
      else s
  | some (Val.vInt n) =>
      if 0 < n then
        { s with rtt_samples := dequeAppend 100 s.rtt_samples (n : ℚ) }
      else s
  | _ => s

/-- Python slice `xs[k:]` (with clamping, negative `k` counting from the
end), applied to a list. -/
def pySliceFrom (xs : List α) (k : Int) : List α :=
  if 0 ≤ k then xs.drop k.toNat else xs.drop (xs.length - (-k).toNat)

/-- Embedding of `SharedState.get_recent_events`: the Python expression
`list(self.events)[-count:]`. -/
def get_recent_events (s : SState) (count : Int) : List Event :=
  pySliceFrom s.events (-count)

/-- Insertion of a rational into a sorted list, ascending. -/
def insertRat (x : ℚ) : List ℚ → List ℚ
  | [] => [x]
  | y :: ys => if x ≤ y then x :: y :: ys else y :: insertRat x ys

/-- Ascending insertion sort, the sorted order `numpy.percentile` computes
over the sample array. -/
def sortRat : List ℚ → List ℚ
  | [] => []
  | x :: xs => insertRat x (sortRat xs)

/-- The `numpy.percentile` default (linear) method: sort the samples, take
fractional rank `q/100 * (n-1)`, and interpolate between the floor and
ceiling ranks. -/
def npPercentileLinear (q : ℚ) (xs : List ℚ) : ℚ :=
  let a := sortRat xs
  let rank : ℚ := q / 100 * ((a.length : ℚ) - 1)
  let lo : Nat := rank.floor.toNat
  let hi : Nat := rank.ceil.toNat
  let frac : ℚ := rank - (lo : ℚ)
  a.getD lo 0 + frac * (a.getD hi 0 - a.getD lo 0)

/-- Modelled from the spec: the linear-interpolation-between-closest-ranks
percentile the spec requires (`calculate_rtt_percentiles` must match a
standard percentile definition), written as the weighted average of the two
closest ranks of the sorted samples. -/
def percentileSpecLinear (q : ℚ) (xs : List ℚ) : ℚ :=
  let a := sortRat xs
  let p : ℚ := q / 100 * ((a.length : ℚ) - 1)
  let i : Nat := p.floor.toNat
  let j : Nat := p.ceil.toNat
  let w : ℚ := p - (i : ℚ)
  (1 - w) * a.getD i 0 + w * a.getD j 0

/-- Embedding of `SharedState.calculate_rtt_percentiles` (`state.py` lines
195-202): fewer than 10 buffered samples give (0, 0); otherwise the 95th
and 99th `numpy.percentile` of the buffer contents. -/
def calculate_rtt_percentiles (rtt_samples : List ℚ) : ℚ × ℚ :=
  if rtt_samples.length < 10 then (0, 0)
  else (npPercentileLinear 95 rtt_samples, npPercentileLinear 99 rtt_samples)

/-- ASCII digit, the characters matched by the patterns' digit class on
these log lines. -/
def isDigitCh (c : Char) : Bool := ('0' ≤ c) && (c ≤ '9')

/-- Python regex whitespace class over ASCII input. -/
def isSpaceCh (c : Char) : Bool :=
  c = ' ' || c = '\t' || c = '\n' || c = '\r' || c.toNat = 11 || c.toNat = 12

/-- The character class of the unsigned numeric captures. -/
def isNumDotCh (c : Char) : Bool := isDigitCh c || c = '.'

/-- The character class of the sign-allowing numeric captures. -/
def isNumDotDashCh (c : Char) : Bool := isDigitCh c || c = '.' || c = '-'

/-- Match a literal character sequence at the head of the input. -/
def litChars : List Char → List Char → Option (List Char)
  | [], cs => some cs
  | _ :: _, [] => none
  | p :: ps, c :: cs => if c = p then litChars ps cs else none

/-- Match a literal string at the head of the input. -/
def litS (pat : String) (cs : List Char) : Option (List Char) :=
  litChars pat.toList cs

/-- Greedy one-or-more capture of a character class.  The patterns only
ever follow such a capture with a character outside the class, so greedy
matching without backtracking coincides with the regex semantics. -/
def capPlus (p : Char → Bool) (cs : List Char) : Option (String × List Char) :=
  let a := cs.takeWhile p
  if a.isEmpty then none else some (String.mk a, cs.dropWhile p)

/-- Mandatory whitespace run. -/
def ws1 (cs : List Char) : Option (List Char) :=
  if (cs.takeWhile isSpaceCh).isEmpty then none
  else some (cs.dropWhile isSpaceCh)

/-- Optional whitespace run. -/
def ws0 (cs : List Char) : List Char := cs.dropWhile isSpaceCh

/-- The recurring separator of the telemetry patterns: whitespace, a pipe,
whitespace. -/
def pipeSep (cs : List Char) : Option (List Char) := do
  let cs ← ws1 cs
  let cs ← litS ("|") cs
  ws1 cs

/-- The named capture groups of the Ground telemetry-summary pattern
(`parsers.py` lines 41-73); the last four groups are optional. -/
structure GroundCaps where
  pct : String
  cmd_w : String
  rcv_mw : String
  eff : String
  lq : String
  rtt : String
  grants : String
  denies : String
  grant_rate : Option String
  dist : Option String
  roll : Option String
  pitch : Option String
deriving DecidableEq, Repr

/-- Attempt one of the optional groups; on failure the input is left
untouched, exactly the behaviour of a greedy optional regex group whose
body is deterministic. -/
def optGroup (m : List Char → Option (String × List Char))
    (cs : List Char) : Option String × List Char :=
  match m cs with
  | some (v, rest) => (some v, rest)
  | none => (none, cs)

/-- The optional grant-rate group of the Ground pattern. -/
def grantRateGroup (cs : List Char) : Option (String × List Char) := do
  let cs ← ws1 cs
  let cs ← litS ("(") cs
  let (v, cs) ← capPlus isNumDotCh cs
  let cs ← litS ("%)") cs
  pure (v, cs)

/-- The optional distance group of the Ground pattern. -/
def distGroup (cs : List Char) : Option (String × List Char) := do
  let cs ← pipeSep cs
  let cs ← litS ("d=") cs
  let (v, cs) ← capPlus isNumDotCh cs
  let cs ← litS ("m") cs
  pure (v, cs)

/-- The optional roll group of the Ground pattern. -/
def rollGroup (cs : List Char) : Option (String × List Char) := do
  let cs ← ws1 cs
  let cs ← litS ("r=") cs
  let (v, cs) ← capPlus isNumDotDashCh cs
  let cs ← litS ("°") cs
  pure (v, cs)

/-- The optional pitch group of the Ground pattern. -/
def pitchGroup (cs : List Char) : Option (String × List Char) := do
  let cs ← ws1 cs
  let cs ← litS ("p=") cs
  let (v, cs) ← capPlus isNumDotDashCh cs
  let cs ← litS ("°") cs
  pure (v, cs)

/-- One labelled numeric component of a pattern: a separator (whitespace
run, pipe separator, or nothing), the literal label, optionally the
source's trailing whitespace class after the label, the capture, and the
literal unit that follows it. -/
def fieldG (sep : List Char → Option (List Char)) (label : String)
    (wsAfterLabel : Bool) (cls : Char → Bool) (post : String)
    (cs : List Char) : Option (String × List Char) := do
  let cs ← sep cs
  let cs ← litS label cs
  let v ← capPlus cls (if wsAfterLabel then ws0 cs else cs)
  let cs ← litS post v.2
  pure (v.1, cs)

/-- A separator matching the empty pattern, for components with nothing
before the label. -/
def noSep (cs : List Char) : Option (List Char) := some cs

/-- First third of the Ground pattern: the bracketed percentage, the
commanded watts and the received milliwatts captures. -/
def groundMatchA (cs : List Char) :
    Option (String × String × String × List Char) := do
  let cs ← litS ("[") cs
  let p1 ← capPlus isDigitCh (ws0 cs)
  let cs ← litS ("%]") p1.2
  let p2 ← fieldG ws1 ("Cmd:") true isNumDotCh ("W") cs
  let p3 ← fieldG pipeSep ("Rcv:") true isNumDotCh ("mW") p2.2
  pure (p1.1, p2.1, p3.1, p3.2)

/-- Second third of the Ground pattern: efficiency, link quality and RTT
captures. -/
def groundMatchB (cs : List Char) :
    Option (String × String × String × List Char) := do
  let p1 ← fieldG pipeSep ("Eff:") true isNumDotCh ("%") cs
  let p2 ← fieldG pipeSep ("LQ:") true isDigitCh ("%") p1.2
  let p3 ← fieldG pipeSep ("RTT:") true isNumDotCh ("ms") p2.2
  pure (p1.1, p2.1, p3.1, p3.2)

/-- The grants/denies component of the Ground pattern. -/
def groundMatchC (cs : List Char) :
    Option (String × String × List Char) := do
  let p1 ← fieldG pipeSep ("G/D:") true isDigitCh ("/") cs
  let p2 ← capPlus isDigitCh p1.2
  pure (p1.1, p2.1, p2.2)

/-- The four optional trailing groups of the Ground pattern, attempted in
order. -/
def groundMatchOpt (cs : List Char) :
    Option String × Option String × Option String × Option String :=
  let q1 := optGroup grantRateGroup cs
  let q2 := optGroup distGroup q1.2
  let q3 := optGroup rollGroup q2.2
  let q4 := optGroup pitchGroup q3.2
  (q1.1, q2.1, q3.1, q4.1)

/-- Match of the Ground telemetry-summary pattern anchored at the current
position, component by component in the source pattern's order. -/
def groundTelemetryMatchAt (cs : List Char) : Option GroundCaps := do
  let a ← groundMatchA cs
  let b ← groundMatchB a.2.2.2
  let c ← groundMatchC b.2.2.2
  let o := groundMatchOpt c.2.2
  pure { pct := a.1, cmd_w := a.2.1, rcv_mw := a.2.2.1, eff := b.1,
         lq := b.2.1, rtt := b.2.2.1, grants := c.1, denies := c.2.1,
         grant_rate := o.1, dist := o.2.1, roll := o.2.2.1,
         pitch := o.2.2.2 }

/-- The `re.search` loop: try the anchored match at every start position,
left to right.  The pattern cannot match the empty string (it needs an
opening bracket), so the match at the end-of-string position always fails. -/
def searchGround : List Char → Option GroundCaps
  | [] => none
  | c :: cs =>
    match groundTelemetryMatchAt (c :: cs) with
    | some r => some r
    | none => searchGround cs

/-- Search of the Ground telemetry pattern over a whole stdout line. -/
def groundTelemetrySearch (line : String) : Option GroundCaps :=
  searchGround line.toList

/-- Decimal value of a digit capture. -/
def digitsToNat (cs : List Char) : Nat :=
  cs.foldl (fun acc c => acc * 10 + (c.toNat - 48)) 0

/-- Python `int` applied to a digit-class capture (always succeeds). -/
def pyIntOfDigits (s : String) : Int := Int.ofNat (digitsToNat s.toList)

/-- Python `float` applied to a capture of the classes used here: an
optional leading minus sign, then digits with at most one decimal point and
at least one digit; anything else (a stray sign or a second point, which
the capture classes allow) raises `ValueError`, embedded as `none`. -/
def pyFloat (s : String) : Option ℚ :=
  let cs₀ := s.toList
  let neg := cs₀.head? = some '-'
  let cs := if neg then cs₀.drop 1 else cs₀
  if cs.all (fun c => isNumDotCh c) ∧
      (cs.filter (fun c => c = '.')).length ≤ 1 then
    let ip := cs.takeWhile (fun c => c ≠ '.')
    let fp := (cs.dropWhile (fun c => c ≠ '.')).drop 1
    if ip.isEmpty ∧ fp.isEmpty then none
    else
      let mag : ℚ :=
        mkRat (Int.ofNat
          (digitsToNat ip * 10 ^ fp.length + digitsToNat fp))
          (10 ^ fp.length)
      some (if neg then -mag else mag)
  else none

/-- One optional telemetry entry: an absent capture contributes no key, a
present capture is converted with `float` (a conversion error aborts the
whole line, as the exception would in the source). -/
def optEntry (key : String) (g : Option String) :
    Option (List (String × Val)) :=
  match g with
  | none => some []
  | some s => (pyFloat s).map (fun q => [(key, Val.vRat q)])

/-- The merges `GroundParser.parse_line` performs on a telemetry-pattern
match (`parsers.py` lines 121-155): the typed mandatory fields, the present
optional fields, and — when grants+denies is nonzero — the derived
`grant_rate_pct`, in merge order. -/
def groundUpdatesOfCaps (c : GroundCaps) : Option (List (String × Val)) := do
  let cmdw ← pyFloat c.cmd_w
  let rcv ← pyFloat c.rcv_mw
  let eff ← pyFloat c.eff
  let rtt ← pyFloat c.rtt
  let grants := pyIntOfDigits c.grants
  let denies := pyIntOfDigits c.denies
  let base : List (String × Val) :=
    [ ("commanded_pct", Val.vInt (pyIntOfDigits c.pct)),
      ("commanded_w", Val.vRat cmdw),
      ("received_mw", Val.vRat rcv),
      ("efficiency_pct", Val.vRat eff),
      ("link_quality_pct", Val.vInt (pyIntOfDigits c.lq)),
      ("rtt_ms", Val.vRat rtt),
      ("grants_total", Val.vInt grants),
      ("denies_total", Val.vInt denies) ]
  let de ← optEntry ("distance_m") c.dist
  let re' ← optEntry ("roll_deg") c.roll
  let pe ← optEntry ("pitch_deg") c.pitch
  let rate : List (String × Val) :=
    if 0 < grants + denies then
      [("grant_rate_pct",
        Val.vRat ((grants : ℚ) / (((grants + denies : Int)) : ℚ) * 100))]
    else []
  pure (base ++ de ++ re' ++ pe ++ rate)

/-- The telemetry merges produced by the Ground decoder for a stdout line,
`none` when the telemetry pattern does not match (the line falls through to
the other rules) or a numeric conversion raises. -/
def groundTelemetryUpdates (line : String) : Option (List (String × Val)) :=
  (groundTelemetrySearch line).bind groundUpdatesOfCaps

/-- The named capture groups of the Air GRANT pattern (`parsers.py` lines
241-250); all groups are mandatory. -/
structure AirCaps where
  seq : String
  cmd_w : String
  rcv_mw : String
  eff : String
  dist : String
  roll : String
  pitch : String
deriving DecidableEq, Repr

/-- First part of the Air GRANT pattern: the GRANT marker, sequence and
commanded watts (the Air pattern allows no whitespace after its labels). -/
def airMatchA (cs : List Char) : Option (String × String × List Char) := do
  let cs ← litS ("✓ GRANT") cs
  let p1 ← fieldG ws1 ("seq=") false isDigitCh ("") cs
  let p2 ← fieldG pipeSep ("Cmd:") false isNumDotCh ("W") p1.2
  pure (p1.1, p2.1, p2.2)

/-- Second part of the Air GRANT pattern: received milliwatts and
efficiency. -/
def airMatchB (cs : List Char) : Option (String × String × List Char) := do
  let p1 ← fieldG pipeSep ("Rcv:") false isNumDotCh ("mW") cs
  let p2 ← fieldG pipeSep ("Eff:") false isNumDotCh ("%") p1.2
  pure (p1.1, p2.1, p2.2)

/-- Third part of the Air GRANT pattern: distance, roll and pitch. -/
def airMatchC (cs : List Char) :
    Option (String × String × String × List Char) := do
  let p1 ← fieldG pipeSep ("d=") false isNumDotCh ("m") cs
  let p2 ← fieldG pipeSep ("r=") false isNumDotDashCh ("°") p1.2
  let p3 ← fieldG ws1 ("p=") false isNumDotDashCh ("°") p2.2
  pure (p1.1, p2.1, p3.1, p3.2)

/-- Match of the Air GRANT pattern anchored at the current position. -/
def airGrantMatchAt (cs : List Char) : Option AirCaps := do
  let a ← airMatchA cs
  let b ← airMatchB a.2.2
  let c ← airMatchC b.2.2
  pure { seq := a.1, cmd_w := a.2.1, rcv_mw := b.1, eff := b.2.1,
         dist := c.1, roll := c.2.1, pitch := c.2.2.1 }

/-- The `re.search` loop for the Air GRANT pattern. -/
def searchAir : List Char → Option AirCaps
  | [] => none
  | c :: cs =>
    match airGrantMatchAt (c :: cs) with
    | some r => some r
    | none => searchAir cs

/-- Search of the Air GRANT pattern over a whole stdout line. -/
def airGrantSearch (line : String) : Option AirCaps :=
  searchAir line.toList

/-- The merges `AirParser.parse_line` performs on a GRANT match
(`parsers.py` lines 310-331): grant status, cleared deny reason, captured
distance, roll, pitch and sequence, then the derived cone-violation flag.
The source compares `(roll**2 + pitch**2)**0.5 > 12.0`; both sides are
nonnegative, so the comparison is embedded exactly over the rationals as
`roll² + pitch² > 144`. -/
def airUpdatesOfCaps (c : AirCaps) : Option (List (String × Val)) := do
  let di ← pyFloat c.dist
  let ro ← pyFloat c.roll
  let pit ← pyFloat c.pitch
  let first : List (String × Val) :=
    [ ("granted", Val.vBool true), ("deny_reason", Val.vNone),
      ("distance_m", Val.vRat di), ("roll_deg", Val.vRat ro),
      ("pitch_deg", Val.vRat pit),
      ("seq", Val.vInt (pyIntOfDigits c.seq)) ]
  let second : List (String × Val) :=
    [("cone_violation", Val.vBool (decide (144 < ro * ro + pit * pit)))]
  pure (first ++ second)

/-- The telemetry merges produced by the Air decoder for a GRANT line. -/
def airGrantUpdates (line : String) : Option (List (String × Val)) :=
  (airGrantSearch line).bind airUpdatesOfCaps

/-- The Ground telemetry example line of the specification. -/
def groundExampleLine : String :=
  "[ 45%] Cmd:225.0W | Rcv:45000.0mW | Eff:20.0% | LQ:92% | RTT:34.5ms | G/D:450/89 (83%) | d=42.1m r=35.2° p=-8.1°"

/-- A Ground telemetry line with nine grants and one deny and no optional
captures. -/
def groundNineOneLine : String :=
  "[ 10%] Cmd:50.0W | Rcv:1000.0mW | Eff:2.0% | LQ:90% | RTT:10.0ms | G/D:9/1"

/-- The Air GRANT example line of the specification. -/
def airGrantExampleLine : String :=
  "[air] ✓ GRANT seq=123 | Cmd:100W | Rcv:40000.0mW | Eff:40.0% | d=50.0m | r=0.0° p=0.0°"

/-- The Air GRANT line of the specification's second example, with ten
degrees of roll and of pitch. -/
def airGrantTiltedLine : String :=
  "[air] ✓ GRANT seq=124 | Cmd:100W | Rcv:40000.0mW | Eff:40.0% | d=50.0m | r=10.0° p=10.0°"

/-- The supervisor state (`supervisor.py`): the shared store, the graceful
shutdown flag, one liveness flag per managed process slot, a ghost log of
the calls made to the external drone-control collaborator, and a ghost
counter of completed `stop_all` entries. -/
structure SupSt where
  store : SState
  shuttingDown : Bool
  ground : Bool
  air : Bool
  relay : Bool
  socat : Bool
  px4Calls : List String
  stopAllRuns : Nat
deriving DecidableEq, Repr

/-- The supervisor right after construction: no processes, flag clear. -/
def idleSup : SupSt :=
  { store := initState, shuttingDown := false, ground := false,
    air := false, relay := false, socat := false, px4Calls := [],
    stopAllRuns := 0 }

/-- Store-level event append lifted to the supervisor state (timestamps are
irrelevant to every claim and fixed at zero). -/
def supEvent (n : SupSt) (level src code msg : String) : SupSt :=
  { n with store := add_event 0 level src code msg n.store }

/-- Store-level status change lifted to the supervisor state. -/
def supStatus (n : SupSt) (new : String) : SupSt :=
  { n with store := set_status 0 new n.store }

/-- A call to the external drone controller, recorded in the ghost log. -/
def supPx4 (n : SupSt) (call : String) : SupSt :=
  { n with px4Calls := n.px4Calls ++ [call] }

/-- Embedding of `_stop_process` for the ground slot, on the graceful
path: running process stopped and slot cleared with an INFO event, absent
process a no-op. -/
def stop_ground (n : SupSt) : SupSt :=
  if n.ground then
    supEvent { n with ground := false } ("INFO") ("ground") ("PROCESS_STOP")
      ("ground stopped gracefully")
  else n

/-- Embedding of `_stop_process` for the air slot. -/
def stop_air (n : SupSt) : SupSt :=
  if n.air then
    supEvent { n with air := false } ("INFO") ("air") ("PROCESS_STOP")
      ("air stopped gracefully")
  else n

/-- Embedding of `_stop_process` for the relay slot. -/
def stop_relay (n : SupSt) : SupSt :=
  if n.relay then
    supEvent { n with relay := false } ("INFO") ("relay") ("PROCESS_STOP")
      ("relay stopped gracefully")
  else n

/-- Embedding of `_stop_virtual_elrs_link`: clear the bridge slot, with the
INFO event emitted when it was running. -/
def stop_link (n : SupSt) : SupSt :=
  if n.socat then
    supEvent { n with socat := false } ("INFO") ("server") ("SOCAT_STOP")
      ("socat PTY bridge stopped")
  else n

/-- The part of `ProcessSupervisor.stop_all` (`supervisor.py` lines
682-717) that runs before the `await asyncio.gather` over the cancelled
monitor tasks: raise the shutting-down flag, set status STOPPING, stop PX4
offboard mode (best-effort: a failure is only a WARN event), stop ground,
air, relay and the bridge, and cancel the monitor tasks.  `offboardOk`
says whether the collaborator call succeeds.  When `stop_all` is awaited
from inside one of the monitor tasks it cancels, the gather contains the
awaiting task itself and never completes, so this prefix is all that ever
executes on that path. -/
def stop_all_entry (n : SupSt) (offboardOk : Bool) : SupSt :=
  let n := { n with shuttingDown := true, stopAllRuns := n.stopAllRuns + 1 }
  let n := supStatus n ("STOPPING")
  let n := supPx4 n ("offboard_stop")
  let n :=
    if offboardOk then
      supEvent n ("INFO") ("supervisor") ("PX4_OFFBOARD_STOP")
        ("PX4 offboard mode stopped")
    else
      supEvent n ("WARN") ("supervisor") ("PX4_OFFBOARD_STOP_FAIL")
        ("Failed to stop offboard")
  let n := stop_ground n
  let n := stop_air n
  let n := stop_relay n
  stop_link n

/-- Embedding of a completed `ProcessSupervisor.stop_all` (`supervisor.py`
lines 682-734), as observed when it is awaited from a task that is NOT one
of the monitor tasks (the HTTP stop/rollback paths): the prefix above, the
gather over the cancelled monitor tasks completing, the stray-process
sweep, then status READY and the flag cleared again. -/
def stop_all (n : SupSt) (offboardOk : Bool) : SupSt :=
  let n := stop_all_entry n offboardOk
  let n := supStatus n ("READY")
  { n with shuttingDown := false }

/-- The `finally` clause of `_monitor_process` for the ground monitor: the
process slot is cleared on every exit path. -/
def clearGroundSlot (n : SupSt) : SupSt := { n with ground := false }

/-- Embedding of the exit handling of `_monitor_process` for the ground
process (`supervisor.py` lines 552-604).  The second component reports
whether the handler runs to completion.  A zero exit code gives an INFO
PROCESS_EXIT event and completes.  A nonzero exit code gives an ERROR
PROCESS_CRASH event; then, unless the shutting-down flag is set, the
handler logs AUTO_LAND and calls the drone controller's land (`landOk`
says whether that call succeeds).  On a successful landing it awaits
`stop_all` — but this `stop_all` runs inside the ground monitor task,
which is itself in `_monitor_tasks` (appended at line 506): `stop_all`
cancels that very task and then awaits a gather containing it, which
never completes, so execution never passes the gather: the state is the
`stop_all` prefix (status STOPPING, flag left set) and the handler never
completes — the READY/SAFE transitions below it are unreachable.  On a
landing failure the handler continues: the next guarded block sets status
READY and stops air, relay and the bridge, the last guarded block sets
status SAFE, and the `finally` clause clears the slot. -/
def monitor_ground_exit (n : SupSt) (exitCode : Int)
    (landOk offboardOk : Bool) : SupSt × Bool :=
  if exitCode = 0 then
    (clearGroundSlot
      (supEvent n ("INFO") ("ground") ("PROCESS_EXIT")
        ("ground exited normally")), true)
  else
    let n := supEvent n ("ERROR") ("ground") ("PROCESS_CRASH")
      ("ground crashed with nonzero exit code")
    if n.shuttingDown then (clearGroundSlot n, true)
    else
      let n := supEvent n ("INFO") ("server") ("AUTO_LAND")
        ("Ground experiment complete, initiating landing sequence")
      let n := supPx4 n ("land")
      if landOk then (stop_all_entry n offboardOk, false)
      else
        let n := supEvent n ("ERROR") ("server") ("LAND_FAILED")
          ("Failed to land drone")
        let n :=
          if n.shuttingDown then n
          else stop_link (stop_relay (stop_air (supStatus n ("READY"))))
        let n := if n.shuttingDown then n else supStatus n ("SAFE")
        (clearGroundSlot n, true)

/-- Number of emergency-landing attempts made through the drone
controller, read off the ghost call log. -/
def landAttempts (n : SupSt) : Nat := n.px4Calls.count ("land")

/-- The steps of `start_all` at which an exception can arise, in the
spec's numbering: stale-process cleanup (step 2), session reset (step 3),
the CONNECTING status change (step 4), the best-effort PX4 connect (step
5), the bridge start (step 6) and the relay/air/ground starts (step 7). -/
inductive StartStep where
  | cleanup
  | sessionReset
  | setConnecting
  | px4Connect
  | bridge
  | relayStart
  | airStart
  | groundStart
deriving DecidableEq, Repr

/-- The `except` clause of `start_all`: the consolidated START_FAIL error
event, the rollback via `stop_all`, and the re-raise. -/
def startFailRollback (n : SupSt) : SupSt × Bool :=
  let n := supEvent n ("ERROR") ("server") ("START_FAIL")
    ("Experiment start failed")
  (stop_all n true, true)

/-- Embedding of `ProcessSupervisor.start_all` (`supervisor.py` lines
266-322), instrumented with an optional injected exception at one step;
the second component reports whether an exception propagates to the
caller.  The control flow mirrors the source exactly: the stale-process
cleanup, the session reset and the CONNECTING status change run before the
`try` block, so an exception there propagates without any rollback; inside
the block a PX4 connect failure is swallowed as a WARN, while a failure of
the bridge or of a process start logs START_FAIL, runs `stop_all` and
re-raises. -/
def start_all (n : SupSt) (failAt : Option StartStep) (sid sc : String)
    (params : List (String × Val)) : SupSt × Bool :=
  if failAt = some StartStep.cleanup then (n, true)
  else
    let n := { n with store := start_session n.store sid sc params 0 }
    if failAt = some StartStep.sessionReset then (n, true)
    else
      let n := supStatus n ("CONNECTING")
      if failAt = some StartStep.setConnecting then (n, true)
      else
        let n := supEvent n ("INFO") ("supervisor") ("PX4_CONNECTING")
          ("Connecting to PX4")
        let n := supPx4 n ("connect")
        let n :=
          if failAt = some StartStep.px4Connect then
            supEvent n ("WARN") ("supervisor") ("PX4_CONNECT_FAIL")
              ("PX4 connection failed")
          else
            supEvent n ("INFO") ("supervisor") ("PX4_CONNECTED")
              ("PX4 connected, telemetry streaming")
        if failAt = some StartStep.bridge then startFailRollback n
        else
          let n := supEvent { n with socat := true } ("INFO") ("server")
            ("SOCAT_START") ("socat PTY bridge started")
          if failAt = some StartStep.relayStart then startFailRollback n
          else
            let n := supEvent { n with relay := true } ("INFO") ("relay")
              ("PROCESS_START") ("MAV Relay started")
            if failAt = some StartStep.airStart then startFailRollback n
            else
              let n := supEvent { n with air := true } ("INFO") ("air")
                ("PROCESS_START") ("Air node started")
              if failAt = some StartStep.groundStart then
                startFailRollback n
              else
                let n := supEvent { n with ground := true } ("INFO")
                  ("ground") ("PROCESS_START") ("Ground station started")
                (supStatus n ("RAMPING"), false)

/-- Embedding of `ProcessSupervisor.is_running` (`supervisor.py` lines
189-193): true when any of the ground, air or relay slots holds a live
process (the bridge slot is not consulted). -/
def is_running (n : SupSt) : Bool := n.ground || n.air || n.relay

/-- The hardware power limit `settings.MAX_POWER_W` from the backend
configuration. -/
def MAX_POWER_W_LIMIT : ℚ := 500

/-- Embedding of the `/ramp/start` route `start_ramp` (`main.py` lines
209-221): reject with the already-in-progress error while a run is active,
then reject requests over the hardware power limit, and only then run
`start_all`; a start failure is logged and surfaced as a 500 error.  The
second component is the HTTP error detail, `none` on success. -/
def start_ramp (n : SupSt) (reqMaxPowerW : ℚ) (failAt : Option StartStep)
    (sid sc : String) (params : List (String × Val)) :
    SupSt × Option String :=
  if is_running n then (n, some ("Ramp already in progress."))
  else if MAX_POWER_W_LIMIT < reqMaxPowerW then
    (n, some ("Exceeds hardware limit"))
  else
    let r := start_all n failAt sid sc params
    if r.2 then
      (supEvent r.1 ("ERROR") ("server") ("START_FAILED")
        ("Failed to start ramp"), some ("Failed to start experiment"))
    else (r.1, none)

/-- A supervisor state mid-run: status RAMPING, all process slots live,
flag clear, ghost logs empty so the handling of one crash can be read off
directly. -/
def rampingSup : SupSt :=
  { store := { initState with status := "RAMPING" }, shuttingDown := false,
    ground := true, air := true, relay := true, socat := true,
    px4Calls := [], stopAllRuns := 0 }

/-- The store mutations that touch the bounded buffers, closed over the
operations the decoders, monitors and supervisor perform on the store. -/
inductive StOp where
  | opAdd (ts : Nat) (level src code msg : String)
  | opTel (data : List (String × Val)) (now : ℚ)
  | opSession (sid sc : String) (params : List (String × Val)) (now : ℚ)
  | opStatus (new : String)

/-- Apply one store operation. -/
def applyOp (s : SState) : StOp → SState
  | StOp.opAdd ts l sr c m => add_event ts l sr c m s
  | StOp.opTel d now => update_telemetry s d now
  | StOp.opSession sid sc p now => start_session s sid sc p now
  | StOp.opStatus new => set_status 0 new s

/-- Run a sequence of store operations from the freshly constructed
state; its results are exactly the reachable store states. -/
def runOps (ops : List StOp) : SState := ops.foldl applyOp initState

/-- The configured capacities of the three bounded buffers. -/
def bufBounds (s : SState) : Prop :=
  s.events.length ≤ 500 ∧ s.errors.length ≤ 50 ∧ s.rtt_samples.length ≤ 100

/-- The merge list the Ground decoder produces for the specification's
example line. -/
def groundExampleUpdates : List (String × Val) :=
  [ ("commanded_pct", Val.vInt 45), ("commanded_w", Val.vRat 225),
    ("received_mw", Val.vRat 45000), ("efficiency_pct", Val.vRat 20),
    ("link_quality_pct", Val.vInt 92), ("rtt_ms", Val.vRat (69 / 2)),
    ("grants_total", Val.vInt 450), ("denies_total", Val.vInt 89),
    ("distance_m", Val.vRat (421 / 10)), ("roll_deg", Val.vRat (176 / 5)),
    ("pitch_deg", Val.vRat (-81 / 10)),
    ("grant_rate_pct", Val.vRat (45000 / 539)) ]

/-- The merge list for the nine-grants/one-deny line. -/
def groundNineOneUpdates : List (String × Val) :=
  [ ("commanded_pct", Val.vInt 10), ("commanded_w", Val.vRat 50),
    ("received_mw", Val.vRat 1000), ("efficiency_pct", Val.vRat 2),
    ("link_quality_pct", Val.vInt 90), ("rtt_ms", Val.vRat 10),
    ("grants_total", Val.vInt 9), ("denies_total", Val.vInt 1),
    ("grant_rate_pct", Val.vRat 90) ]

/-- The capture set of the nine-grants/one-deny line (no optional
captures). -/
def nineOneCaps : GroundCaps :=
  { pct := "10", cmd_w := "50.0", rcv_mw := "1000.0", eff := "2.0",
    lq := "90", rtt := "10.0", grants := "9", denies := "1",
    grant_rate := none, dist := none, roll := none, pitch := none }

/-- The merge list the Air decoder produces for the specification's level
GRANT example. -/
def airGrantExampleUpdates : List (String × Val) :=
  [ ("granted", Val.vBool true), ("deny_reason", Val.vNone),
    ("distance_m", Val.vRat 50), ("roll_deg", Val.vRat 0),
    ("pitch_deg", Val.vRat 0), ("seq", Val.vInt 123),
    ("cone_violation", Val.vBool false) ]

/-- The merge list for the ten-degree roll and pitch GRANT example. -/
def airGrantTiltedUpdates : List (String × Val) :=
  [ ("granted", Val.vBool true), ("deny_reason", Val.vNone),
    ("distance_m", Val.vRat 50), ("roll_deg", Val.vRat 10),
    ("pitch_deg", Val.vRat 10), ("seq", Val.vInt 124),
    ("cone_violation", Val.vBool true) ]

/-- The capture set of the level GRANT example line. -/
def airCapsLevel : AirCaps :=
  { seq := "123", cmd_w := "100", rcv_mw := "40000.0", eff := "40.0",
    dist := "50.0", roll := "0.0", pitch := "0.0" }

/-- Ten concrete RTT samples, the smallest buffer the percentile path
accepts. -/
def rttTen : List ℚ := [1, 2, 3, 4, 5, 6, 7, 8, 9, 10]

/-- A store holding three events, for exercising the recent-events
slice. -/
def threeEventState : SState :=
  { initState with
      events := [ { ts := 1, level := "INFO", src := "a", code := "c1",
                    msg := "m1" },
                  { ts := 2, level := "INFO", src := "a", code := "c2",
                    msg := "m2" },
                  { ts := 3, level := "INFO", src := "a", code := "c3",
                    msg := "m3" } ] }

/-- The status field is untouched by an event append. -/
@[simp] lemma add_event_status (ts : Nat) (l sr c m : String) (s : SState) :
    (add_event ts l sr c m s).status = s.status := by
  unfold add_event; split <;> rfl

/-- The status history is untouched by an event append. -/
@[simp] lemma add_event_statusTrace (ts : Nat) (l sr c m : String)
    (s : SState) :
    (add_event ts l sr c m s).statusTrace = s.statusTrace := by
  unfold add_event; split <;> rfl

/-- Every event append extends the ghost event history by that event. -/
@[simp] lemma add_event_eventLog (ts : Nat) (l sr c m : String) (s : SState) :
    (add_event ts l sr c m s).eventLog
      = s.eventLog ++ [{ ts := ts, level := l, src := sr, code := c,
                         msg := m.take 200 }] := by
  unfold add_event; split <;> rfl

/-- The session fields are untouched by an event append. -/
@[simp] lemma add_event_session (ts : Nat) (l sr c m : String) (s : SState) :
    (add_event ts l sr c m s).session_id = s.session_id := by
  unfold add_event; split <;> rfl

/-- A status change sets exactly the new status. -/
@[simp] lemma set_status_status (ts : Nat) (new : String) (s : SState) :
    (set_status ts new s).status = new := by
  unfold set_status; simp

/-- A status change appends the new status to the ghost history. -/
@[simp] lemma set_status_statusTrace (ts : Nat) (new : String) (s : SState) :
    (set_status ts new s).statusTrace = s.statusTrace ++ [new] := by
  unfold set_status; simp

/-- A status change appends exactly the STATUS_CHANGE event to the ghost
event history. -/
@[simp] lemma set_status_eventLog (ts : Nat) (new : String) (s : SState) :
    (set_status ts new s).eventLog
      = s.eventLog
        ++ [{ ts := ts, level := "INFO", src := "server",
              code := "STATUS_CHANGE",
              msg := ("Status changed from " ++ s.status ++ " to "
                ++ new).take 200 }] := by
  unfold set_status; simp
/-- The ground slot is cleared by `stop_ground`. -/
@[simp] lemma stop_ground_ground (n : SupSt) : (stop_ground n).ground = false := by
  unfold stop_ground; split <;> first | rfl | simp_all

/-- The air slot is untouched by `stop_ground`. -/
@[simp] lemma stop_ground_air (n : SupSt) : (stop_ground n).air = n.air := by
  unfold stop_ground; split <;> rfl

/-- The relay slot is untouched by `stop_ground`. -/
@[simp] lemma stop_ground_relay (n : SupSt) : (stop_ground n).relay = n.relay := by
  unfold stop_ground; split <;> rfl

/-- The socat slot is untouched by `stop_ground`. -/
@[simp] lemma stop_ground_socat (n : SupSt) : (stop_ground n).socat = n.socat := by
  unfold stop_ground; split <;> rfl

/-- The shuttingDown field is untouched by `stop_ground`. -/
@[simp] lemma stop_ground_shuttingDown (n : SupSt) : (stop_ground n).shuttingDown = n.shuttingDown := by
  unfold stop_ground; split <;> rfl

/-- The px4Calls field is untouched by `stop_ground`. -/
@[simp] lemma stop_ground_px4Calls (n : SupSt) : (stop_ground n).px4Calls = n.px4Calls := by
  unfold stop_ground; split <;> rfl

/-- The stopAllRuns field is untouched by `stop_ground`. -/
@[simp] lemma stop_ground_stopAllRuns (n : SupSt) : (stop_ground n).stopAllRuns = n.stopAllRuns := by
  unfold stop_ground; split <;> rfl

/-- The system status is untouched by `stop_ground`. -/
@[simp] lemma stop_ground_status (n : SupSt) : (stop_ground n).store.status = n.store.status := by
  unfold stop_ground; split <;> rfl

/-- The status history is untouched by `stop_ground`. -/
@[simp] lemma stop_ground_statusTrace (n : SupSt) : (stop_ground n).store.statusTrace = n.store.statusTrace := by
  unfold stop_ground; split <;> rfl

/-- The ghost event history gains the stop event when the ground slot was
live, and nothing otherwise. -/
@[simp] lemma stop_ground_eventLog (n : SupSt) :
    (stop_ground n).store.eventLog
      = n.store.eventLog
        ++ (if n.ground then
              [{ ts := 0, level := "INFO", src := "ground", code := "PROCESS_STOP",
                  msg := ("ground stopped gracefully").take 200 }]
            else []) := by
  unfold stop_ground; split <;> simp_all [supEvent]

/-- The air slot is cleared by `stop_air`. -/
@[simp] lemma stop_air_air (n : SupSt) : (stop_air n).air = false := by
  unfold stop_air; split <;> first | rfl | simp_all

/-- The ground slot is untouched by `stop_air`. -/
@[simp] lemma stop_air_ground (n : SupSt) : (stop_air n).ground = n.ground := by
  unfold stop_air; split <;> rfl

/-- The relay slot is untouched by `stop_air`. -/
@[simp] lemma stop_air_relay (n : SupSt) : (stop_air n).relay = n.relay := by
  unfold stop_air; split <;> rfl

/-- The socat slot is untouched by `stop_air`. -/
@[simp] lemma stop_air_socat (n : SupSt) : (stop_air n).socat = n.socat := by
  unfold stop_air; split <;> rfl

/-- The shuttingDown field is untouched by `stop_air`. -/
@[simp] lemma stop_air_shuttingDown (n : SupSt) : (stop_air n).shuttingDown = n.shuttingDown := by
  unfold stop_air; split <;> rfl

/-- The px4Calls field is untouched by `stop_air`. -/
@[simp] lemma stop_air_px4Calls (n : SupSt) : (stop_air n).px4Calls = n.px4Calls := by
  unfold stop_air; split <;> rfl

/-- The stopAllRuns field is untouched by `stop_air`. -/
@[simp] lemma stop_air_stopAllRuns (n : SupSt) : (stop_air n).stopAllRuns = n.stopAllRuns := by
  unfold stop_air; split <;> rfl

/-- The system status is untouched by `stop_air`. -/
@[simp] lemma stop_air_status (n : SupSt) : (stop_air n).store.status = n.store.status := by
  unfold stop_air; split <;> rfl

/-- The status history is untouched by `stop_air`. -/
@[simp] lemma stop_air_statusTrace (n : SupSt) : (stop_air n).store.statusTrace = n.store.statusTrace := by
  unfold stop_air; split <;> rfl

/-- The ghost event history gains the stop event when the air slot was
live, and nothing otherwise. -/
@[simp] lemma stop_air_eventLog (n : SupSt) :
    (stop_air n).store.eventLog
      = n.store.eventLog
        ++ (if n.air then
              [{ ts := 0, level := "INFO", src := "air", code := "PROCESS_STOP",
                  msg := ("air stopped gracefully").take 200 }]
            else []) := by
  unfold stop_air; split <;> simp_all [supEvent]

/-- The relay slot is cleared by `stop_relay`. -/
@[simp] lemma stop_relay_relay (n : SupSt) : (stop_relay n).relay = false := by
  unfold stop_relay; split <;> first | rfl | simp_all

/-- The ground slot is untouched by `stop_relay`. -/
@[simp] lemma stop_relay_ground (n : SupSt) : (stop_relay n).ground = n.ground := by
  unfold stop_relay; split <;> rfl

/-- The air slot is untouched by `stop_relay`. -/
@[simp] lemma stop_relay_air (n : SupSt) : (stop_relay n).air = n.air := by
  unfold stop_relay; split <;> rfl

/-- The socat slot is untouched by `stop_relay`. -/
@[simp] lemma stop_relay_socat (n : SupSt) : (stop_relay n).socat = n.socat := by
  unfold stop_relay; split <;> rfl

/-- The shuttingDown field is untouched by `stop_relay`. -/
@[simp] lemma stop_relay_shuttingDown (n : SupSt) : (stop_relay n).shuttingDown = n.shuttingDown := by
  unfold stop_relay; split <;> rfl

/-- The px4Calls field is untouched by `stop_relay`. -/
@[simp] lemma stop_relay_px4Calls (n : SupSt) : (stop_relay n).px4Calls = n.px4Calls := by
  unfold stop_relay; split <;> rfl

/-- The stopAllRuns field is untouched by `stop_relay`. -/
@[simp] lemma stop_relay_stopAllRuns (n : SupSt) : (stop_relay n).stopAllRuns = n.stopAllRuns := by
  unfold stop_relay; split <;> rfl

/-- The system status is untouched by `stop_relay`. -/
@[simp] lemma stop_relay_status (n : SupSt) : (stop_relay n).store.status = n.store.status := by
  unfold stop_relay; split <;> rfl

/-- The status history is untouched by `stop_relay`. -/
@[simp] lemma stop_relay_statusTrace (n : SupSt) : (stop_relay n).store.statusTrace = n.store.statusTrace := by
  unfold stop_relay; split <;> rfl

/-- The ghost event history gains the stop event when the relay slot was
live, and nothing otherwise. -/
@[simp] lemma stop_relay_eventLog (n : SupSt) :
    (stop_relay n).store.eventLog
      = n.store.eventLog
        ++ (if n.relay then
              [{ ts := 0, level := "INFO", src := "relay", code := "PROCESS_STOP",
                  msg := ("relay stopped gracefully").take 200 }]
            else []) := by
  unfold stop_relay; split <;> simp_all [supEvent]

/-- The socat slot is cleared by `stop_link`. -/
@[simp] lemma stop_link_socat (n : SupSt) : (stop_link n).socat = false := by
  unfold stop_link; split <;> first | rfl | simp_all

/-- The ground slot is untouched by `stop_link`. -/
@[simp] lemma stop_link_ground (n : SupSt) : (stop_link n).ground = n.ground := by
  unfold stop_link; split <;> rfl

/-- The air slot is untouched by `stop_link`. -/
@[simp] lemma stop_link_air (n : SupSt) : (stop_link n).air = n.air := by
  unfold stop_link; split <;> rfl

/-- The relay slot is untouched by `stop_link`. -/
@[simp] lemma stop_link_relay (n : SupSt) : (stop_link n).relay = n.relay := by
  unfold stop_link; split <;> rfl

/-- The shuttingDown field is untouched by `stop_link`. -/
@[simp] lemma stop_link_shuttingDown (n : SupSt) : (stop_link n).shuttingDown = n.shuttingDown := by
  unfold stop_link; split <;> rfl

/-- The px4Calls field is untouched by `stop_link`. -/
@[simp] lemma stop_link_px4Calls (n : SupSt) : (stop_link n).px4Calls = n.px4Calls := by
  unfold stop_link; split <;> rfl

/-- The stopAllRuns field is untouched by `stop_link`. -/
@[simp] lemma stop_link_stopAllRuns (n : SupSt) : (stop_link n).stopAllRuns = n.stopAllRuns := by
  unfold stop_link; split <;> rfl

/-- The system status is untouched by `stop_link`. -/
@[simp] lemma stop_link_status (n : SupSt) : (stop_link n).store.status = n.store.status := by
  unfold stop_link; split <;> rfl

/-- The status history is untouched by `stop_link`. -/
@[simp] lemma stop_link_statusTrace (n : SupSt) : (stop_link n).store.statusTrace = n.store.statusTrace := by
  unfold stop_link; split <;> rfl

/-- The ghost event history gains the stop event when the socat slot was
live, and nothing otherwise. -/
@[simp] lemma stop_link_eventLog (n : SupSt) :
    (stop_link n).store.eventLog
      = n.store.eventLog
        ++ (if n.socat then
              [{ ts := 0, level := "INFO", src := "server", code := "SOCAT_STOP",
                  msg := ("socat PTY bridge stopped").take 200 }]
            else []) := by
  unfold stop_link; split <;> simp_all [supEvent]

/-- A completed `stop_all` leaves status READY. -/
@[simp] lemma stop_all_status (n : SupSt) (ok : Bool) :
    (stop_all n ok).store.status = "READY" := by
  cases ok <;> simp [stop_all, stop_all_entry, supStatus, supEvent, supPx4]

/-- A completed `stop_all` clears the shutting-down flag again. -/
@[simp] lemma stop_all_shuttingDown (n : SupSt) (ok : Bool) :
    (stop_all n ok).shuttingDown = false := by
  cases ok <;> simp [stop_all, stop_all_entry, supStatus, supEvent, supPx4]

/-- Each `stop_all` run bumps the ghost run counter once. -/
@[simp] lemma stop_all_stopAllRuns (n : SupSt) (ok : Bool) :
    (stop_all n ok).stopAllRuns = n.stopAllRuns + 1 := by
  cases ok <;> simp [stop_all, stop_all_entry, supStatus, supEvent, supPx4]

/-- The only drone-controller call `stop_all` makes is the offboard
stop. -/
@[simp] lemma stop_all_px4Calls (n : SupSt) (ok : Bool) :
    (stop_all n ok).px4Calls = n.px4Calls ++ [("offboard_stop")] := by
  cases ok <;> simp [stop_all, stop_all_entry, supStatus, supEvent, supPx4]

/-- The statuses `stop_all` sets, in order: STOPPING, then READY. -/
@[simp] lemma stop_all_statusTrace (n : SupSt) (ok : Bool) :
    (stop_all n ok).store.statusTrace
      = n.store.statusTrace ++ [("STOPPING"), ("READY")] := by
  cases ok <;> simp [stop_all, stop_all_entry, supStatus, supEvent, supPx4]

/-- No ground process is left after `stop_all`. -/
@[simp] lemma stop_all_ground (n : SupSt) (ok : Bool) :
    (stop_all n ok).ground = false := by
  cases ok <;> simp [stop_all, stop_all_entry, supStatus, supEvent, supPx4]

/-- No air process is left after `stop_all`. -/
@[simp] lemma stop_all_air (n : SupSt) (ok : Bool) :
    (stop_all n ok).air = false := by
  cases ok <;> simp [stop_all, stop_all_entry, supStatus, supEvent, supPx4]

/-- No relay process is left after `stop_all`. -/
@[simp] lemma stop_all_relay (n : SupSt) (ok : Bool) :
    (stop_all n ok).relay = false := by
  cases ok <;> simp [stop_all, stop_all_entry, supStatus, supEvent, supPx4]

/-- No bridge process is left after `stop_all`. -/
@[simp] lemma stop_all_socat (n : SupSt) (ok : Bool) :
    (stop_all n ok).socat = false := by
  cases ok <;> simp [stop_all, stop_all_entry, supStatus, supEvent, supPx4]

/-- Events present before a `stop_all` remain in the ghost event
history. -/
lemma stop_all_log_mono (n : SupSt) (ok : Bool) (a : Event)
    (h : a ∈ n.store.eventLog) : a ∈ (stop_all n ok).store.eventLog := by
  cases ok <;> simp [stop_all, stop_all_entry, supStatus, supEvent, supPx4, h]

/-- Appending a land call bumps the land count. -/
@[simp] lemma count_land_append_land (l : List String) :
    (l ++ [("land")]).count ("land") = l.count ("land") + 1 := by
  simp [List.count_append]

/-- Appending an offboard-stop call leaves the land count unchanged. -/
@[simp] lemma count_land_append_offboard (l : List String) :
    (l ++ [("offboard_stop")]).count ("land") = l.count ("land") := by
  have h : (("land" : String) == ("offboard_stop" : String)) = false := by
    decide
  simp [List.count_append, List.count_singleton', h]

/-- C1 (corrected): for a nonzero ground exit with the shutting-down flag
clear, the handler records an ERROR PROCESS_CRASH event and makes exactly
one landing attempt through the drone controller.  When the landing call
raises, the handler completes: status is transiently set to READY by the
auto-cleanup block and then SAFE, so the final status is SAFE but READY is
set during the handling.  When the landing call succeeds, the handler
awaits `stop_all` from inside the ground monitor task; `stop_all` cancels
that very task and awaits a gather containing it, which never completes,
so the handling never finishes: status is left at STOPPING with the
shutting-down flag set, and neither READY nor SAFE is ever set on that
path.  If the same nonzero exit is observed while an operator-initiated
`stop_all` is underway (flag set), no landing attempt is made and the
status is untouched. -/
theorem ground_crash_amended (n : SupSt) (ec : Int) (landOk offOk : Bool)
    (hec : ec ≠ 0) (hsd : n.shuttingDown = false) :
    landAttempts (monitor_ground_exit n ec landOk offOk).1
        = landAttempts n + 1
    ∧ (∃ ev ∈ (monitor_ground_exit n ec landOk offOk).1.store.eventLog,
        ev.level = "ERROR" ∧ ev.code = "PROCESS_CRASH")
    ∧ (landOk = false →
        (monitor_ground_exit n ec landOk offOk).2 = true
        ∧ (monitor_ground_exit n ec landOk offOk).1.store.status = "SAFE"
        ∧ (monitor_ground_exit n ec landOk offOk).1.store.statusTrace
            = n.store.statusTrace ++ [("READY"), ("SAFE")])
    ∧ (landOk = true →
        (monitor_ground_exit n ec landOk offOk).2 = false
        ∧ (monitor_ground_exit n ec landOk offOk).1.store.status
            = "STOPPING"
        ∧ (monitor_ground_exit n ec landOk offOk).1.shuttingDown = true
        ∧ (monitor_ground_exit n ec landOk offOk).1.store.statusTrace
            = n.store.statusTrace ++ [("STOPPING")])
    ∧ (∀ m : SupSt, m.shuttingDown = true →
        landAttempts (monitor_ground_exit m ec landOk offOk).1
            = landAttempts m
        ∧ (monitor_ground_exit m ec landOk offOk).2 = true
        ∧ (monitor_ground_exit m ec landOk offOk).1.store.status
            = m.store.status
        ∧ (monitor_ground_exit m ec landOk offOk).1.store.statusTrace
            = m.store.statusTrace) := by
  have hec' : ¬ ec = 0 := hec
  refine ⟨?_, ?_, ?_, ?_, ?_⟩
  · cases landOk <;> cases offOk <;>
      simp [monitor_ground_exit, stop_all_entry, clearGroundSlot,
        landAttempts, supEvent, supStatus, supPx4, hec', hsd]
  · refine ⟨⟨0, "ERROR", "ground", "PROCESS_CRASH",
        ("ground crashed with nonzero exit code").take 200⟩, ?_, rfl, rfl⟩
    cases landOk <;> cases offOk <;>
      simp [monitor_ground_exit, stop_all_entry, clearGroundSlot,
        supEvent, supStatus, supPx4, hec', hsd]
  · intro hl
    subst hl
    refine ⟨?_, ?_, ?_⟩ <;>
      cases offOk <;>
      simp [monitor_ground_exit, clearGroundSlot, supEvent, supStatus,
        supPx4, hec', hsd]
  · intro hl
    subst hl
    refine ⟨?_, ?_, ?_, ?_⟩ <;>
      cases offOk <;>
      simp [monitor_ground_exit, stop_all_entry, clearGroundSlot,
        supEvent, supStatus, supPx4, hec', hsd]
  · intro m hm
    refine ⟨?_, ?_, ?_, ?_⟩ <;>
      simp [monitor_ground_exit, clearGroundSlot, supEvent, landAttempts,
        hec', hm]

/-- C1 counterexample to the claim as stated, at two concrete mid-ramp
crash runs (exit code 1, flag clear).  With the landing call raising, the
handler completes but sets READY during the handling, refuting the claim's
never-READY clause.  With the landing call succeeding, the handler never
completes: it blocks inside `stop_all` awaiting the gather over the
cancelled monitor tasks (which include itself), status stays STOPPING and
SAFE is never set, refuting the claim's completes-with-status-SAFE
clause. -/
theorem ground_crash_sets_ready_transiently :
    ("READY")
        ∈ (monitor_ground_exit rampingSup 1 false true).1.store.statusTrace
    ∧ landAttempts (monitor_ground_exit rampingSup 1 false true).1 = 1
    ∧ (monitor_ground_exit rampingSup 1 false true).1.store.status = "SAFE"
    ∧ (monitor_ground_exit rampingSup 1 true true).2 = false
    ∧ (monitor_ground_exit rampingSup 1 true true).1.store.status
        = "STOPPING"
    ∧ ("SAFE")
        ∉ (monitor_ground_exit rampingSup 1 true true).1.store.statusTrace
    := by decide

/-- C1 witness: the amended theorem applied to the two concrete mid-ramp
crash runs, one with the landing call raising and one with it
succeeding. -/
theorem ground_crash_amended_witness :
    landAttempts (monitor_ground_exit rampingSup 1 false true).1
        = landAttempts rampingSup + 1
    ∧ (monitor_ground_exit rampingSup 1 false true).1.store.status = "SAFE"
    ∧ (monitor_ground_exit rampingSup 1 true true).2 = false :=
  ⟨(ground_crash_amended rampingSup 1 false true (by decide) rfl).1,
   ((ground_crash_amended rampingSup 1 false true (by decide)
      rfl).2.2.1 rfl).2.1,
   ((ground_crash_amended rampingSup 1 true true (by decide)
      rfl).2.2.2.1 rfl).1⟩

/-- C2 (corrected): an exception raised inside the monitored region of
`start_all` — the bridge start or any of the relay/air/ground starts, the
part after status is set to CONNECTING — triggers the full rollback
(`stop_all` runs once, so no role process and no bridge is left running)
and re-raises to the caller; but an exception during the stale-process
cleanup, the session reset or the CONNECTING status change (spec steps
2-4) propagates to the caller without any rollback, because those steps
run before the `try` block. -/
theorem start_rollback_amended (n : SupSt) (failStep : StartStep)
    (sid sc : String) (params : List (String × Val))
    (hmem : failStep = StartStep.bridge ∨ failStep = StartStep.relayStart
      ∨ failStep = StartStep.airStart ∨ failStep = StartStep.groundStart) :
    (start_all n (some failStep) sid sc params).2 = true
    ∧ (start_all n (some failStep) sid sc params).1.stopAllRuns
        = n.stopAllRuns + 1
    ∧ (start_all n (some failStep) sid sc params).1.ground = false
    ∧ (start_all n (some failStep) sid sc params).1.air = false
    ∧ (start_all n (some failStep) sid sc params).1.relay = false
    ∧ (start_all n (some failStep) sid sc params).1.socat = false
    ∧ (∀ g : StartStep,
        g = StartStep.cleanup ∨ g = StartStep.sessionReset
          ∨ g = StartStep.setConnecting →
        (start_all n (some g) sid sc params).2 = true
        ∧ (start_all n (some g) sid sc params).1.stopAllRuns
            = n.stopAllRuns) := by
  refine ⟨?_, ?_, ?_, ?_, ?_, ?_, ?_⟩
  · rcases hmem with rfl | rfl | rfl | rfl <;> rfl
  · rcases hmem with rfl | rfl | rfl | rfl <;>
      simp [start_all, startFailRollback, supEvent, supStatus, supPx4,
        start_session]
  · rcases hmem with rfl | rfl | rfl | rfl <;>
      simp [start_all, startFailRollback, supEvent, supStatus, supPx4,
        start_session]
  · rcases hmem with rfl | rfl | rfl | rfl <;>
      simp [start_all, startFailRollback, supEvent, supStatus, supPx4,
        start_session]
  · rcases hmem with rfl | rfl | rfl | rfl <;>
      simp [start_all, startFailRollback, supEvent, supStatus, supPx4,
        start_session]
  · rcases hmem with rfl | rfl | rfl | rfl <;>
      simp [start_all, startFailRollback, supEvent, supStatus, supPx4,
        start_session]
  · intro g hg
    rcases hg with rfl | rfl | rfl <;> exact ⟨rfl, rfl⟩

/-- C2 counterexample to the claim as stated: an exception during step 2
(the stale-process cleanup) propagates to the caller while leaving the
supervisor state completely untouched — in particular `stop_all` never
runs, so no rollback happens. -/
theorem start_cleanup_failure_no_rollback :
    (start_all idleSup (some StartStep.cleanup) ("s1") ("sc") []).2 = true
    ∧ (start_all idleSup (some StartStep.cleanup) ("s1") ("sc") []).1
        = idleSup := ⟨rfl, rfl⟩

/-- C2 witness: the amended theorem applied to a bridge-start failure from
the idle supervisor. -/
theorem start_rollback_amended_witness :
    (start_all idleSup (some StartStep.bridge) ("s1") ("sc") []).2 = true
    ∧ (start_all idleSup (some StartStep.bridge) ("s1") ("sc")
        []).1.stopAllRuns = idleSup.stopAllRuns + 1 :=
  ⟨(start_rollback_amended idleSup StartStep.bridge ("s1") ("sc") []
      (Or.inl rfl)).1,
   (start_rollback_amended idleSup StartStep.bridge ("s1") ("sc") []
      (Or.inl rfl)).2.1⟩

/-- C3 (corrected): after `start_session` the session record holds exactly
the new id, scenario and parameters, the event, error and RTT buffers are
empty, and the telemetry map equals the literal reset map written in
`start_session` — every key of that reset map that also exists in the
construction-time default map carries its construction-time default value,
but the reset map is NOT the construction map: the GPS, home and panel
keys of the construction map are dropped (and `laser_commanded_w` is
added), so not every construction-time key is present again. -/
theorem start_session_amended (s : SState) (sid sc : String)
    (params : List (String × Val)) (now : ℚ) :
    (start_session s sid sc params now).session_id = some sid
    ∧ (start_session s sid sc params now).scenario = sc
    ∧ (start_session s sid sc params now).ramp_params = some params
    ∧ (start_session s sid sc params now).events = []
    ∧ (start_session s sid sc params now).errors = []
    ∧ (start_session s sid sc params now).rtt_samples = []
    ∧ (start_session s sid sc params now).telemetry = startSessionTelemetry
    ∧ (∀ kv ∈ startSessionTelemetry,
        defaultTelemetry.lookup kv.1 = none
          ∨ defaultTelemetry.lookup kv.1 = some kv.2)
    ∧ startSessionTelemetry ≠ defaultTelemetry := by
  refine ⟨rfl, rfl, rfl, rfl, rfl, rfl, rfl, by decide, by decide⟩

/-- C3 counterexample to the claim as stated: `gps_lat_deg` is present in
the construction-time telemetry map but absent from the telemetry map
right after `start_session`, so the post-reset map does not contain every
construction-time key. -/
theorem start_session_drops_gps_key :
    (defaultTelemetry.lookup ("gps_lat_deg")).isSome = true
    ∧ ((start_session initState ("run1") ("sc") [] 0).telemetry.lookup
        ("gps_lat_deg")).isSome = false := by decide

/-- C3 witness: the amended theorem applied to a concrete session start,
with the shared-key clause instantiated at `commanded_pct`. -/
theorem start_session_amended_witness :
    (start_session initState ("run1") ("sc") [] 0).telemetry
        = startSessionTelemetry
    ∧ (defaultTelemetry.lookup ("commanded_pct") = none
        ∨ defaultTelemetry.lookup ("commanded_pct")
            = some (Val.vInt 0)) :=
  ⟨(start_session_amended initState ("run1") ("sc") [] 0).2.2.2.2.2.2.1,
   (start_session_amended initState ("run1") ("sc") [] 0).2.2.2.2.2.2.2.1
     (("commanded_pct"), Val.vInt 0) (by decide)⟩

/-- C4 (confirmed): when a run is active, `/ramp/start` is rejected with
the already-in-progress error before anything happens — the returned state
is exactly the input state, so process table, session record and status
are unchanged; when no run is active (and the request is within the power
limit) the call is not rejected by that guard; and a successful start
leaves a run active, so a second call is rejected. -/
theorem start_guard_rejects_when_running (n : SupSt) (reqW : ℚ)
    (failAt : Option StartStep) (sid sc : String)
    (params : List (String × Val)) :
    (is_running n = true →
      start_ramp n reqW failAt sid sc params
        = (n, some ("Ramp already in progress.")))
    ∧ (is_running n = false → reqW ≤ MAX_POWER_W_LIMIT →
        (start_ramp n reqW failAt sid sc params).2
          ≠ some ("Ramp already in progress."))
    ∧ is_running (start_all n none sid sc params).1 = true := by
  refine ⟨?_, ?_, ?_⟩
  · intro h; simp [start_ramp, h]
  · intro h hw
    have hw' : ¬ MAX_POWER_W_LIMIT < reqW := not_lt.mpr hw
    simp [start_ramp, h, hw']
    split <;> simp
  · rfl

/-- C4 witness: the guard theorem applied to a mid-ramp supervisor (the
second call, rejected unchanged) and to the idle supervisor (the first
call, not rejected). -/
theorem start_guard_witness :
    start_ramp rampingSup 100 none ("s1") ("sc") []
        = (rampingSup, some ("Ramp already in progress."))
    ∧ (start_ramp idleSup 100 none ("s1") ("sc") []).2
        ≠ some ("Ramp already in progress.") :=
  ⟨(start_guard_rejects_when_running rampingSup 100 none ("s1") ("sc")
      []).1 rfl,
   (start_guard_rejects_when_running idleSup 100 none ("s1") ("sc")
      []).2.1 rfl (by decide)⟩

/-- The code's interpolation form equals the spec's weighted-average form
of the linear percentile. -/
lemma np_percentile_eq_spec (q : ℚ) (xs : List ℚ) :
    npPercentileLinear q xs = percentileSpecLinear q xs := by
  simp [npPercentileLinear, percentileSpecLinear]
  ring

/-- C7 (confirmed): with fewer than 10 buffered samples the percentile
query returns (0, 0); with at least 10 it returns the 95th and 99th
percentiles of the buffer under linear-interpolation-between-closest-ranks
semantics. -/
theorem rtt_percentiles_spec (xs : List ℚ) :
    (xs.length < 10 → calculate_rtt_percentiles xs = (0, 0))
    ∧ (10 ≤ xs.length →
        calculate_rtt_percentiles xs
          = (percentileSpecLinear 95 xs, percentileSpecLinear 99 xs)) := by
  constructor
  · intro h
    simp [calculate_rtt_percentiles, h]
  · intro h
    have h' : ¬ xs.length < 10 := by omega
    simp [calculate_rtt_percentiles, h', np_percentile_eq_spec]

/-- C7 witness: the percentile contract at a ten-sample buffer and at a
three-sample buffer. -/
theorem rtt_percentiles_spec_witness :
    calculate_rtt_percentiles rttTen
        = (percentileSpecLinear 95 rttTen, percentileSpecLinear 99 rttTen)
    ∧ calculate_rtt_percentiles [1, 2, 3] = (0, 0) :=
  ⟨(rtt_percentiles_spec rttTen).2 (by decide),
   (rtt_percentiles_spec [1, 2, 3]).1 (by decide)⟩

/-- C8 (confirmed): `add_event` stores the event with the message
truncated to 200 characters, appends it to the bounded all-events buffer,
appends it to the error buffer exactly when the level is ERROR or WARN,
invokes the broadcast hook (when set) with the structured event payload
after the critical section, and returns the same updated state whatever
the hook is and whether or not it raises — the hook's exception is
swallowed and the buffers keep the appended event. -/
theorem add_event_contract (s : SState) (ts : Nat)
    (level src code msg : String)
    (hook : Option (BroadcastPayload → Except String Unit)) :
    (add_event_broadcast ts level src code msg s hook).1.events
        = dequeAppend 500 s.events ⟨ts, level, src, code, msg.take 200⟩
    ∧ (add_event_broadcast ts level src code msg s hook).1.errors
        = (if level = "ERROR" ∨ level = "WARN" then
             dequeAppend 50 s.errors ⟨ts, level, src, code, msg.take 200⟩
           else s.errors)
    ∧ (add_event_broadcast ts level src code msg s hook).2
        = (if hook.isSome then
             [{ ptype := "event",
                event := ⟨ts, level, src, code, msg.take 200⟩ }]
           else [])
    ∧ (add_event_broadcast ts level src code msg s hook).1
        = add_event ts level src code msg s := by
  have hstate : (add_event_broadcast ts level src code msg s hook).1
      = add_event ts level src code msg s := by
    cases hook with
    | none => rfl
    | some h =>
      rcases hE : h ⟨("event"), ⟨ts, level, src, code, msg.take 200⟩⟩
        with a | a <;>
      simp [add_event_broadcast, hE]
  refine ⟨?_, ?_, ?_, hstate⟩
  · rw [hstate]; unfold add_event; split <;> rfl
  · rw [hstate]; unfold add_event; split <;> simp [*]
  · cases hook with
    | none => rfl
    | some h =>
      rcases hE : h ⟨("event"), ⟨ts, level, src, code, msg.take 200⟩⟩
        with a | a <;>
      simp [add_event_broadcast, hE]

/-- C10 (confirmed): for a count of at least one, `get_recent_events`
returns the most recent `min count stored` events in append order (a
suffix of the buffer); for count zero the Python slice `[-0:]` returns the
entire buffered list, not the empty list. -/
theorem get_recent_events_slice (s : SState) (count : Int) :
    (1 ≤ count →
      get_recent_events s count
          = s.events.drop (s.events.length - count.toNat)
      ∧ (get_recent_events s count).length
          = min count.toNat s.events.length
      ∧ List.IsSuffix (get_recent_events s count) s.events)
    ∧ (count = 0 → get_recent_events s count = s.events) := by
  constructor
  · intro h
    have h0 : ¬ (0 ≤ -count) := by omega
    unfold get_recent_events pySliceFrom
    rw [if_neg h0, neg_neg]
    refine ⟨rfl, ?_, List.drop_suffix _ _⟩
    rw [List.length_drop]
    omega
  · intro h
    subst h
    unfold get_recent_events pySliceFrom
    simp

/-- C10 witness: the slice contract at a three-event store with counts two
and zero. -/
theorem get_recent_events_slice_witness :
    get_recent_events threeEventState 2
        = threeEventState.events.drop
            (threeEventState.events.length - (2 : Int).toNat)
    ∧ get_recent_events threeEventState 0 = threeEventState.events :=
  ⟨((get_recent_events_slice threeEventState 2).1 (by decide)).1,
   (get_recent_events_slice threeEventState 0).2 rfl⟩

/-- Appending to a deque below or at capacity keeps it within capacity. -/
lemma dequeAppend_length_le {α : Type} (cap : Nat) (xs : List α) (x : α)
    (hc : 0 < cap) (h : xs.length ≤ cap) :
    (dequeAppend cap xs x).length ≤ cap := by
  unfold dequeAppend
  split <;> simp <;> omega

/-- An event append preserves the buffer capacity bounds. -/
lemma add_event_bounds (ts : Nat) (l sr c m : String) (s : SState)
    (h : bufBounds s) : bufBounds (add_event ts l sr c m s) := by
  obtain ⟨h1, h2, h3⟩ := h
  unfold add_event bufBounds
  split <;>
    exact ⟨dequeAppend_length_le _ _ _ (by omega) h1,
      by first
        | exact dequeAppend_length_le _ _ _ (by omega) h2
        | exact h2,
      h3⟩

/-- A telemetry merge preserves the buffer capacity bounds. -/
lemma update_telemetry_bounds (s : SState) (data : List (String × Val))
    (now : ℚ) (h : bufBounds s) :
    bufBounds (update_telemetry s data now) := by
  obtain ⟨h1, h2, h3⟩ := h
  unfold update_telemetry bufBounds
  split <;> (try split) <;>
    exact ⟨h1, h2, by
      first
        | exact dequeAppend_length_le _ _ _ (by omega) h3
        | exact h3⟩

/-- Every sequence of store operations preserves the buffer bounds. -/
lemma runOps_bounds_aux (ops : List StOp) (s : SState) (h : bufBounds s) :
    bufBounds (ops.foldl applyOp s) := by
  induction ops generalizing s with
  | nil => exact h
  | cons op rest ih =>
    apply ih
    cases op with
    | opAdd ts l sr c m => exact add_event_bounds ts l sr c m s h
    | opTel d now => exact update_telemetry_bounds s d now h
    | opSession sid sc p now =>
      exact ⟨by simp [applyOp, start_session],
        by simp [applyOp, start_session], by simp [applyOp, start_session]⟩
    | opStatus new => exact add_event_bounds _ _ _ _ _ _ h

/-- C9 (confirmed): in every reachable store state the all-events buffer
holds at most 500 events, the error buffer at most 50 and the RTT buffer
at most 100 samples; an append to a full deque evicts exactly the oldest
(head) entry, and every deque append yields a suffix of the
appended-in-order sequence, preserving relative append order. -/
theorem buffer_bounds_invariant :
    (∀ ops : List StOp, bufBounds (runOps ops))
    ∧ (∀ (α : Type) (cap : Nat) (xs : List α) (x : α), 0 < cap →
        xs.length = cap → dequeAppend cap xs x = xs.tail ++ [x])
    ∧ (∀ (α : Type) (cap : Nat) (xs : List α) (x : α),
        List.IsSuffix (dequeAppend cap xs x) (xs ++ [x])) := by
  refine ⟨?_, ?_, ?_⟩
  · intro ops
    exact runOps_bounds_aux ops initState
      (by refine ⟨?_, ?_, ?_⟩ <;> simp [initState])
  · intro α cap xs x hc hl
    unfold dequeAppend
    rw [if_neg (by omega), List.drop_one]
  · intro α cap xs x
    unfold dequeAppend
    split
    · exact List.suffix_rfl
    · obtain ⟨t, ht⟩ := List.drop_suffix 1 xs
      exact ⟨t, by rw [← List.append_assoc, ht]⟩

/-- C9 witness: the invariant at a two-operation run, and FIFO eviction on
a concrete full three-element deque. -/
theorem buffer_bounds_invariant_witness :
    bufBounds (runOps [StOp.opAdd 0 ("ERROR") ("air") ("X") ("m"),
      StOp.opTel [(("rtt_ms"), Val.vRat 5)] 1])
    ∧ dequeAppend 3 [1, 2, 3] (4 : Nat) = [1, 2, 3].tail ++ [4] :=
  ⟨buffer_bounds_invariant.1 _,
   buffer_bounds_invariant.2.1 Nat 3 [1, 2, 3] 4 (by decide) (by decide)⟩

/-- An optional capture contributes its key exactly when it is present. -/
lemma optEntry_keys (key : String) (g : Option String)
    (l : List (String × Val)) (h : optEntry key g = some l) :
    l.map Prod.fst = if g.isSome then [key] else [] := by
  cases g with
  | none =>
    simp [optEntry] at h
    subst h
    simp
  | some s =>
    simp [optEntry] at h
    obtain ⟨q, hq, hl⟩ := h
    subst hl
    simp

/-- The keys the Ground decoder merges for any successful telemetry match:
the eight mandatory fields, the present optional fields, and the grant
rate exactly when grants+denies is nonzero. -/
lemma groundUpdates_keys (c : GroundCaps) (u : List (String × Val))
    (h : groundUpdatesOfCaps c = some u) :
    u.map Prod.fst
      = [("commanded_pct"), ("commanded_w"), ("received_mw"),
         ("efficiency_pct"), ("link_quality_pct"), ("rtt_ms"),
         ("grants_total"), ("denies_total")]
        ++ (if c.dist.isSome then [("distance_m")] else [])
        ++ (if c.roll.isSome then [("roll_deg")] else [])
        ++ (if c.pitch.isSome then [("pitch_deg")] else [])
        ++ (if 0 < pyIntOfDigits c.grants + pyIntOfDigits c.denies then
              [("grant_rate_pct")] else []) := by
  simp only [groundUpdatesOfCaps, bind, Option.bind_eq_some,
    Option.pure_def, Option.some.injEq] at h
  obtain ⟨cmdw, h1, rcv, h2, eff, h3, rtt, h4, de, h5, re', h6, pe, h7,
    hu⟩ := h
  subst hu
  simp [List.map_append, optEntry_keys _ _ _ h5, optEntry_keys _ _ _ h6,
    optEntry_keys _ _ _ h7,
    apply_ite (List.map (Prod.fst : String × Val → String))]

/-- C5 (confirmed): the specification's example Ground line decodes to
exactly the claimed unit-stripped typed merges plus the derived grant
rate; for every matching line the merged key set is the mandatory fields
plus exactly the present optional captures plus `grant_rate_pct` when
grants+denies is nonzero; and the nine-grants/one-deny line derives a
grant rate of 90. -/
theorem ground_telemetry_decode :
    groundTelemetryUpdates groundExampleLine = some groundExampleUpdates
    ∧ (∀ (c : GroundCaps) (u : List (String × Val)),
        groundUpdatesOfCaps c = some u →
        u.map Prod.fst
          = [("commanded_pct"), ("commanded_w"), ("received_mw"),
             ("efficiency_pct"), ("link_quality_pct"), ("rtt_ms"),
             ("grants_total"), ("denies_total")]
            ++ (if c.dist.isSome then [("distance_m")] else [])
            ++ (if c.roll.isSome then [("roll_deg")] else [])
            ++ (if c.pitch.isSome then [("pitch_deg")] else [])
            ++ (if 0 < pyIntOfDigits c.grants + pyIntOfDigits c.denies
                then [("grant_rate_pct")] else []))
    ∧ groundTelemetryUpdates groundNineOneLine
        = some groundNineOneUpdates := by
  refine ⟨by with_unfolding_all rfl,
    fun c u h => groundUpdates_keys c u h,
    by with_unfolding_all rfl⟩

/-- C5 witness: the key-set clause applied to the concrete capture set of
the nine-grants/one-deny line. -/
theorem ground_telemetry_decode_witness :
    groundNineOneUpdates.map Prod.fst
      = [("commanded_pct"), ("commanded_w"), ("received_mw"),
         ("efficiency_pct"), ("link_quality_pct"), ("rtt_ms"),
         ("grants_total"), ("denies_total"), ("grant_rate_pct")] := by
  have h := ground_telemetry_decode.2.1 nineOneCaps groundNineOneUpdates
    (by with_unfolding_all rfl)
  simpa using h

/-- Every successful Air GRANT decode merges grant status, cleared deny
reason, the captured distance, roll, pitch and sequence, and the
cone-violation flag, whose squared comparison agrees with the
square-root formulation of the specification. -/
lemma airUpdates_shape (c : AirCaps) (u : List (String × Val))
    (h : airUpdatesOfCaps c = some u) :
    ∃ d r p, pyFloat c.dist = some d ∧ pyFloat c.roll = some r
      ∧ pyFloat c.pitch = some p
      ∧ u = [ ("granted", Val.vBool true), ("deny_reason", Val.vNone),
              ("distance_m", Val.vRat d), ("roll_deg", Val.vRat r),
              ("pitch_deg", Val.vRat p),
              ("seq", Val.vInt (pyIntOfDigits c.seq)),
              ("cone_violation",
                Val.vBool (decide (144 < r * r + p * p))) ]
      ∧ ((144 < r * r + p * p)
          ↔ 12 < Real.sqrt ((r : ℝ) * r + p * p)) := by
  simp only [airUpdatesOfCaps, bind, Option.bind_eq_some, Option.pure_def,
    Option.some.injEq] at h
  obtain ⟨d, h1, r, h2, p, h3, hu⟩ := h
  refine ⟨d, r, p, h1, h2, h3, hu.symm, ?_⟩
  rw [Real.lt_sqrt (by norm_num)]
  norm_num
  exact_mod_cast Iff.rfl

/-- C6 (confirmed): the specification's level GRANT line decodes to
granted with cleared deny reason, distance 50 and no cone violation; the
ten-degree roll and pitch GRANT decodes with the cone violation set; and
every GRANT decode merges granted, the cleared deny reason, the captured
distance, roll, pitch and sequence, and
`cone_violation = sqrt(roll² + pitch²) > 12`. -/
theorem air_grant_decode :
    airGrantUpdates airGrantExampleLine = some airGrantExampleUpdates
    ∧ airGrantUpdates airGrantTiltedLine = some airGrantTiltedUpdates
    ∧ (∀ (c : AirCaps) (u : List (String × Val)),
        airUpdatesOfCaps c = some u →
        ∃ d r p, pyFloat c.dist = some d ∧ pyFloat c.roll = some r
          ∧ pyFloat c.pitch = some p
          ∧ u = [ ("granted", Val.vBool true), ("deny_reason", Val.vNone),
                  ("distance_m", Val.vRat d), ("roll_deg", Val.vRat r),
                  ("pitch_deg", Val.vRat p),
                  ("seq", Val.vInt (pyIntOfDigits c.seq)),
                  ("cone_violation",
                    Val.vBool (decide (144 < r * r + p * p))) ]
          ∧ ((144 < r * r + p * p)
              ↔ 12 < Real.sqrt ((r : ℝ) * r + p * p))) := by
  refine ⟨by with_unfolding_all rfl, by with_unfolding_all rfl,
    fun c u h => airUpdates_shape c u h⟩

/-- C6 witness: the shape clause applied to the concrete capture set of
the level GRANT example. -/
theorem air_grant_decode_witness :
    ∃ d r p, pyFloat airCapsLevel.dist = some d
      ∧ pyFloat airCapsLevel.roll = some r
      ∧ pyFloat airCapsLevel.pitch = some p
      ∧ airGrantExampleUpdates
          = [ ("granted", Val.vBool true), ("deny_reason", Val.vNone),
              ("distance_m", Val.vRat d), ("roll_deg", Val.vRat r),
              ("pitch_deg", Val.vRat p),
              ("seq", Val.vInt (pyIntOfDigits airCapsLevel.seq)),
              ("cone_violation",
                Val.vBool (decide (144 < r * r + p * p))) ]
      ∧ ((144 < r * r + p * p)
          ↔ 12 < Real.sqrt ((r : ℝ) * r + p * p)) :=
  air_grant_decode.2.2 airCapsLevel airGrantExampleUpdates
    (by with_unfolding_all rfl)
